import Mathlib

/-!
Verification development for the erpnext-shipping EasyPost / UPS-direct /
FedEx-direct integration.  The Python modules are shallowly embedded:
pure data flow becomes Lean functions, Python dicts become structures with
Option-valued fields (a missing key is none), monetary values are modelled
as rationals, raised exceptions become Except values, and the file store
is threaded explicitly as a list of (filename, content) pairs.
-/

namespace ErpShip

/-- Python truthiness for an optional string: None and the empty string are
falsy.  Returns the string when truthy, none otherwise.  Mirrors the
pervasive `x.get(k) or ...` / `if x:` idiom of the source. -/
def truthy (o : Option String) : Option String :=
  match o with
  | none => none
  | some s => if s = "" then none else some s

/-- Python `a or b` on an optional string with a string fallback:
returns a when a is truthy, else b. -/
def py_or_str (a : Option String) (b : String) : String :=
  match truthy a with
  | some s => s
  | none => b

/-- Embeds re.sub applied with the pattern that deletes every character that
is not A-Z, a-z or 0-9, from easypost.py line 190 (account cleaning). -/
def clean_account (acct : String) : String :=
  String.mk (acct.toList.filter (fun c => c.isAlphanum))

/-- Embeds re.sub applied with the non-digit pattern followed by the 15-char
slice, from ups_direct.py line 139 and fedex_direct.py line 191. -/
def clean_phone (raw : String) : String :=
  String.mk ((raw.toList.filter (fun c => c.isDigit)).take 15)

/-- Python str.upper, written over the character list so that concrete
instances evaluate inside the kernel. -/
def str_upper (s : String) : String :=
  String.mk (s.toList.map Char.toUpper)

/-- Python str.lower, written over the character list so that concrete
instances evaluate inside the kernel. -/
def str_lower (s : String) : String :=
  String.mk (s.toList.map Char.toLower)

/-- Exceptions of the embedded Python code: carrier HTTP 4xx/5xx errors
(requests.exceptions.HTTPError), frappe.throw validation errors, and any
other unexpected exception. -/
inductive PyExc where
  | httpError (detail : String)
  | validationError (msg : String)
  | generic (msg : String)
  deriving DecidableEq, Repr

/-- Decidable equality for Except values, so that concrete runs of the
embedded fallible operations can be checked by decide. -/
instance {ε α : Type} [DecidableEq ε] [DecidableEq α] : DecidableEq (Except ε α) :=
  fun a b =>
    match a, b with
    | .ok x, .ok y =>
      if h : x = y then isTrue (by rw [h])
      else isFalse (fun hc => h (by injection hc))
    | .error x, .error y =>
      if h : x = y then isTrue (by rw [h])
      else isFalse (fun hc => h (by injection hc))
    | .ok _, .error _ => isFalse (fun hc => Except.noConfusion hc)
    | .error _, .ok _ => isFalse (fun hc => Except.noConfusion hc)

/-- One parcel row as supplied to the orchestrator: dimensions, weight, an
optional count, and the extra keys a Shipment Parcel child row carries in
practice (easypost.py line 165 reads row["parent"]), here represented by
parent. -/
structure ParcelRow where
  length : ℚ
  width : ℚ
  height : ℚ
  weight : ℚ
  count : Option Int := none
  parent : Option String := none
  deriving DecidableEq, Repr

/-- One physical box as produced by build_parcel_list: exactly the four
keys length/width/height/weight (easypost.py lines 43-48). -/
structure Parcel where
  length : ℚ
  width : ℚ
  height : ℚ
  weight : ℚ
  deriving DecidableEq, Repr

/-- Embeds int(row.get("count") or 1) from easypost.py line 42: a missing,
None or zero count is treated as 1 by Python truthiness; any other integer
is taken as-is. -/
def row_qty (r : ParcelRow) : Int :=
  match r.count with
  | none => 1
  | some n => if n = 0 then 1 else n

/-- Projection of a row to the parcel dict built at easypost.py lines
43-48: only the four dimensional keys are copied. -/
def row_parcel (r : ParcelRow) : Parcel :=
  { length := r.length, width := r.width, height := r.height, weight := r.weight }

/-- Embeds build_parcel_list (easypost.py lines 35-50): per row, the parcel
dict is replicated qty times (a Python list times a negative integer is
empty, captured by Int.toNat). -/
def build_parcel_list (rows : List ParcelRow) : List Parcel :=
  rows.foldl (fun acc r => acc ++ List.replicate (row_qty r).toNat (row_parcel r)) []

/-- Embeds EasyPostUtils._DISPLAY_MAP (easypost.py lines 77-100); .get on
the dict returns none on a miss. -/
def display_map (k : String) : Option String :=
  if k = "FEDEXDEFAULT" then some "FedEx"
  else if k = "FEDEX" then some "FedEx"
  else if k = "UPSDAP" then some "UPS"
  else if k = "USPS" then some "USPS"
  else if k = "FEDEX_2_DAY" then some "2‑Day"
  else if k = "FEDEX_EXPRESS_SAVER" then some "Express Saver"
  else if k = "FEDEX_GROUND" then some "Ground"
  else if k = "PRIORITY_OVERNIGHT" then some "Priority Overnight"
  else if k = "STANDARD_OVERNIGHT" then some "Standard Overnight"
  else if k = "GroundAdvantage" then some "Ground Advantage"
  else if k = "3DaySelect" then some "3‑Day"
  else if k = "SMART_POST" then some "Smart Post"
  else if k = "2ndDayAir" then some "2‑Day"
  else if k = "NextDayAirSaver" then some "Next Day Air Saver"
  else if k = "NextDayAir" then some "Next Day Air"
  else if k = "FEDEX_2_DAY_AM" then some "2‑Day AM"
  else if k = "NextDayAirEarlyAM" then some "Next Day Air AM"
  else if k = "2ndDayAirAM" then some "2‑Day AM"
  else if k = "UPSGroundsaverGreaterThan1lb" then some "Ground Saver"
  else if k = "FIRST_OVERNIGHT" then some "Next Day Air AM"
  else none

/-- Embeds EasyPostUtils._pretty (easypost.py lines 102-104). -/
def pretty (raw : String) : String :=
  (display_map raw).getD raw

/-- Embeds UPSDirect.SERVICE_MAP (ups_direct.py lines 49-82). -/
def ups_service_map (code : String) : Option String :=
  if code = "01" then some "Next Day Air"
  else if code = "02" then some "2nd Day Air"
  else if code = "03" then some "Ground"
  else if code = "12" then some "3-Day Select"
  else if code = "13" then some "Next Day Air Saver"
  else if code = "14" then some "Next Day Air Early A.M."
  else if code = "59" then some "2nd Day Air A.M."
  else if code = "07" then some "Worldwide Express"
  else if code = "08" then some "Worldwide Expedited"
  else if code = "11" then some "Standard"
  else if code = "54" then some "Worldwide Express Plus"
  else if code = "65" then some "Worldwide Saver"
  else if code = "96" then some "Worldwide Express Freight"
  else if code = "92" then some "SurePost Less than 1 lb"
  else if code = "93" then some "SurePost 1 lb or Greater"
  else if code = "94" then some "SurePost BPM"
  else if code = "95" then some "SurePost Media Mail"
  else if code = "70" then some "Access Point Economy"
  else if code = "82" then some "Today Standard"
  else if code = "83" then some "Today Dedicated Courier"
  else if code = "84" then some "Today Intercity"
  else if code = "85" then some "Today Express"
  else if code = "86" then some "Today Express Saver"
  else none

/-- Embeds FedExDirect.SERVICE_MAP (fedex_direct.py lines 102-124). -/
def fedex_service_map (s : String) : Option String :=
  if s = "FEDEX_GROUND" then some "Ground"
  else if s = "GROUND_HOME_DELIVERY" then some "Home Delivery"
  else if s = "SMART_POST" then some "SmartPost"
  else if s = "FEDEX_EXPRESS_SAVER" then some "3-Day"
  else if s = "FEDEX_2_DAY" then some "2-Day"
  else if s = "FEDEX_2_DAY_AM" then some "2-Day AM"
  else if s = "STANDARD_OVERNIGHT" then some "Standard Overnight"
  else if s = "FEDEX_STANDARD_OVERNIGHT_EXTRA_HOURS" then some "Standard Overnight (Extra Hours)"
  else if s = "PRIORITY_OVERNIGHT" then some "Priority Overnight"
  else if s = "FEDEX_PRIORITY_OVERNIGHT_EXTRA_HOURS" then some "Priority Overnight (Extra Hours)"
  else if s = "FIRST_OVERNIGHT" then some "First Overnight"
  else if s = "FEDEX_FIRST_OVERNIGHT_EXTRA_HOURS" then some "First Overnight (Extra Hours)"
  else if s = "INTERNATIONAL_ECONOMY" then some "International Economy"
  else if s = "INTERNATIONAL_PRIORITY" then some "International Priority"
  else none

/-- Embeds TRANSIT_TIME_MAP (fedex_direct.py lines 37-49). -/
def transit_time_map (s : String) : Option Int :=
  if s = "ONE_DAY" then some 1
  else if s = "TWO_DAYS" then some 2
  else if s = "THREE_DAYS" then some 3
  else if s = "FOUR_DAYS" then some 4
  else if s = "FIVE_DAYS" then some 5
  else if s = "SIX_DAYS" then some 6
  else if s = "SEVEN_DAYS" then some 7
  else if s = "EIGHT_DAYS" then some 8
  else if s = "NINE_DAYS" then some 9
  else if s = "TEN_DAYS" then some 10
  else none

/-- Value of the first maximal digit run of a string, as found by
re.search applied with the digit pattern (easypost.py line 297); none when
the string has no digit. -/
def first_int (s : String) : Option Int :=
  let d := (s.toList.dropWhile (fun c => !c.isDigit)).takeWhile (fun c => c.isDigit)
  if d.isEmpty then none
  else some (Int.ofNat (d.foldl (fun acc c => acc * 10 + (c.toNat - 48)) 0))

/-- Embeds the delivery-days derivation for FedEx direct rates
(easypost.py lines 293-299 and 403-409): TRANSIT_TIME_MAP lookup, falling
back to the first integer of the transit string when that string is
truthy, else none. -/
def transit_days (t : Option String) : Option Int :=
  match t with
  | none => none
  | some s =>
    match transit_time_map s with
    | some n => some n
    | none => if s = "" then none else first_int s

/-- One EasyPost rate object as read by get_service_dict: the carrier and
service strings, the id, the price (a string in the API, converted by flt;
modelled as a rational) and the optional delivery_days. -/
structure EPRate where
  carrier : String
  service : String
  rate : ℚ
  delivery_days : Option Int := none
  id : String
  deriving DecidableEq, Repr

/-- One UPS RatedShipment record as read at easypost.py lines 345-352:
the Service.Code and Service.Description fields (both via .get, hence
optional), TotalCharges.MonetaryValue and GuaranteedDaysToDelivery. -/
structure UPSRated where
  code : Option String := none
  description : Option String := none
  monetary : ℚ
  guaranteed_days : Option Int := none
  deriving DecidableEq, Repr

/-- One FedEx rateReplyDetails record as read at easypost.py lines
286-299: serviceType (via .get, optional), the first
ratedShipmentDetails totalNetCharge (missing defaults to 0), and the
operationalDetail transitTime string. -/
structure FedExRated where
  serviceType : Option String := none
  totalNetCharge : ℚ := 0
  transit : Option String := none
  deriving DecidableEq, Repr

/-- One normalized quote dict of get_available_services.  Fields a given
code path does not set are none/false, mirroring keys absent from the
Python dict (every consumer reads them with .get).  The echoed request
context (to_address, from_address, parcels) is carried unchanged by the
source and not read by any filter, so it is not repeated here. -/
structure Service where
  service_provider : String
  carrier : String
  carrier_code : Option String := none
  service_name : Option String := none
  total_price : ℚ := 0
  delivery_days : Option Int := none
  service_id : Option String := none
  service_code : Option String := none
  shipment_id : Option String := none
  order_id : Option String := none
  is_order : Bool := false
  ups_shipper_number : Option String := none
  ups_account : Option String := none
  ups_postal_code : Option String := none
  fedex_shipper_number : Option String := none
  fedex_account : Option String := none
  fedex_postal_code : Option String := none
  deriving DecidableEq, Repr

/-- Embeds EasyPostUtils.get_service_dict (easypost.py lines 766-787):
EasyPost quotes get carrier_code FEDEXDEFAULT when the raw carrier is
FedEx, else the uppercased raw carrier; total_price is the rate times the
caller-supplied multiplier; shipment_id and order_id depend on is_order. -/
def get_service_dict (svc : EPRate) (multiplier : Nat) (ep_id : String)
    (is_ord : Bool) : Service :=
  let cc := if svc.carrier = "FedEx" then "FEDEXDEFAULT" else str_upper svc.carrier
  { service_provider := "EasyPost"
    carrier := pretty cc
    carrier_code := some cc
    service_name := some (pretty svc.service)
    total_price := svc.rate * (multiplier : ℚ)
    delivery_days := svc.delivery_days
    service_id := some svc.id
    service_code := some svc.service
    shipment_id := if is_ord then none else some ep_id
    order_id := if is_ord then some ep_id else none
    is_order := is_ord }

/-- Normalization of the EasyPost rates array (easypost.py lines 251-259):
every rate becomes a Service via get_service_dict, with multiplier 1 on
the order path (parcel_count above 1) and parcel_count otherwise. -/
def epServices (ep : List EPRate) (pc : Nat) (oid : String) : List Service :=
  ep.map (fun r => get_service_dict r (if pc > 1 then 1 else pc) oid (decide (pc > 1)))

/-- Reading of a quote carrier code at easypost.py lines 263 and 265:
s.get("carrier_code") or "", uppercased. -/
def ccUp (s : Service) : String :=
  str_upper (s.carrier_code.getD "")

/-- Embeds the aggregator carrier-collision filter (easypost.py lines
261-265): multi-parcel drops FEDEXDEFAULT quotes, single-parcel drops
FEDEX quotes. -/
def collision_filter (pc : Nat) (ss : List Service) : List Service :=
  if pc > 1 then ss.filter (fun s => ccUp s ≠ "FEDEXDEFAULT")
  else ss.filter (fun s => ccUp s ≠ "FEDEX")

/-- Condition of the sender-billed FedEx direct block (easypost.py line
270). -/
def fedex_sender_called (pc : Nat) (bill_3p : Bool) : Bool :=
  decide (pc > 1) && !bill_3p

/-- Condition of the UPS third-party direct block (easypost.py lines
328-329). -/
def ups_3p_called (bill_3p : Bool) (clean : String) : Bool :=
  bill_3p && (clean.length == 6)

/-- Condition of the FedEx third-party direct block (easypost.py line
380). -/
def fedex_3p_called (bill_3p : Bool) (clean : String) : Bool :=
  bill_3p && !(clean.length == 6) && (clean.length == 9)

/-- The UPS nice service name (easypost.py lines 346-352): Description,
else the SERVICE_MAP entry of the code, else the code, chained with
Python or. -/
def ups_nice_name (r : UPSRated) : String :=
  let code := py_or_str r.code ""
  py_or_str r.description (py_or_str (ups_service_map code) code)

/-- The quote dict appended for one UPS direct rated shipment
(easypost.py lines 354-370). -/
def ups_direct_service (shipper clean zip3p : String) (r : UPSRated) : Service :=
  let code := py_or_str r.code ""
  { service_provider := "UPS"
    carrier := "UPS"
    service_name := some (ups_nice_name r)
    total_price := r.monetary
    delivery_days := r.guaranteed_days
    service_id := some code
    shipment_id := none
    ups_shipper_number := some shipper
    ups_account := some clean
    ups_postal_code := some zip3p.trim }

/-- The FedEx nice service name (easypost.py lines 287-288 and 397-398):
SERVICE_MAP entry or the raw serviceType; None stays None. -/
def fedex_nice_name (svcType : Option String) : Option String :=
  match svcType with
  | none => none
  | some s => some ((fedex_service_map s).getD s)

/-- The quote dict appended for one sender-billed FedEx direct rate
(easypost.py lines 301-318): the shipper number is used as the billed
account and the sender zip as the billing zip. -/
def fedex_sender_service (shipper fromZip : String) (r : FedExRated) : Service :=
  { service_provider := "FedEx"
    carrier := pretty "FEDEX"
    carrier_code := some "FEDEX"
    service_name := fedex_nice_name r.serviceType
    total_price := r.totalNetCharge
    delivery_days := transit_days r.transit
    service_id := r.serviceType
    shipment_id := none
    fedex_shipper_number := some shipper
    fedex_account := some shipper
    fedex_postal_code := some fromZip }

/-- The quote dict appended for one third-party FedEx direct rate
(easypost.py lines 411-428): billed to the cleaned customer account and
its stripped zip. -/
def fedex_3p_service (shipper clean zip3p : String) (r : FedExRated) : Service :=
  { service_provider := "FedEx"
    carrier := pretty "FEDEX"
    carrier_code := some "FEDEX"
    service_name := fedex_nice_name r.serviceType
    total_price := r.totalNetCharge
    delivery_days := transit_days r.transit
    service_id := r.serviceType
    shipment_id := none
    fedex_shipper_number := some shipper
    fedex_account := some clean
    fedex_postal_code := some zip3p.trim }

/-- The third-party payment block sent inside the EasyPost options
(easypost.py lines 193-207): built only when third-party billing is
flagged and the cleaned account has exactly 6 characters. -/
structure PaymentBlock where
  typ : String
  account : String
  postal_code : String
  country : String
  deriving DecidableEq, Repr

/-- Embeds the third_party_block construction of easypost.py lines
193-207 (the block at line 200; the empty dict otherwise). -/
def third_party_payment_block (bill_3p : Bool) (clean zip3p : String) :
    Option PaymentBlock :=
  if bill_3p && (clean.length == 6) then
    some { typ := "THIRD_PARTY", account := clean,
           postal_code := zip3p.trim, country := "US" }
  else none

/-- Stage 1 of the quote-list assembly (easypost.py lines 251-265): the
EasyPost rates normalized and collision-filtered. -/
def services_after_collision (ep : List EPRate) (pc : Nat) (oid : String) :
    List Service :=
  collision_filter pc (epServices ep pc oid)

/-- Stage 2 (easypost.py lines 270-318): the sender-billed FedEx direct
rates are appended for a non-third-party multi-parcel shipment. -/
def services_after_sender (ep : List EPRate) (fxR : List FedExRated)
    (pc : Nat) (bill_3p : Bool) (oid fxShipper fromZip : String) :
    List Service :=
  if fedex_sender_called pc bill_3p then
    services_after_collision ep pc oid
      ++ fxR.map (fedex_sender_service fxShipper fromZip)
  else services_after_collision ep pc oid

/-- Stage 3 (easypost.py lines 328-433): for a 6-character third-party
account the UPS direct rates are appended and the EasyPost UPS duplicates
dropped; for a 9-character account the FedEx direct rates are appended. -/
def services_after_3p_blocks (ep : List EPRate) (upsR : List UPSRated)
    (fxR : List FedExRated) (pc : Nat) (bill_3p : Bool)
    (clean zip3p oid upsShipper fxShipper fromZip : String) : List Service :=
  if ups_3p_called bill_3p clean then
    (services_after_sender ep fxR pc bill_3p oid fxShipper fromZip
        ++ upsR.map (ups_direct_service upsShipper clean zip3p)).filter
      (fun s => !(s.service_provider == "EasyPost" && s.carrier == "UPS"))
  else if fedex_3p_called bill_3p clean then
    services_after_sender ep fxR pc bill_3p oid fxShipper fromZip
      ++ fxR.map (fedex_3p_service fxShipper clean zip3p)
  else services_after_sender ep fxR pc bill_3p oid fxShipper fromZip

/-- Embeds the quote-list assembly of get_available_services after the
EasyPost response has been parsed (easypost.py lines 251-442): the three
stages above followed by the final third-party carrier filter of lines
435-441. -/
def get_available_services_core (ep : List EPRate) (upsR : List UPSRated)
    (fxR : List FedExRated) (pc : Nat) (bill_3p : Bool)
    (clean zip3p oid upsShipper fxShipper fromZip : String) : List Service :=
  let s3 := services_after_3p_blocks ep upsR fxR pc bill_3p clean zip3p oid
              upsShipper fxShipper fromZip
  if bill_3p then
    if clean.length == 6 then s3.filter (fun s => s.service_provider == "UPS")
    else if clean.length == 9 then s3.filter (fun s => s.service_provider == "FedEx")
    else s3
  else s3

/-! Exception flow of the rate-shopping call. -/

/-- Embeds the per-carrier-block exception handling used three times in
get_available_services (easypost.py lines 319-323, 371-375, 429-433): an
HTTPError is re-raised unchanged, any other exception is converted into a
frappe.throw validation error. -/
def carrier_block_handler {α : Type} (r : Except PyExc α) : Except PyExc α :=
  match r with
  | .error (.httpError d) => .error (.httpError d)
  | .error (.validationError m) =>
      .error (.validationError ("Unexpected error: " ++ m))
  | .error (.generic m) =>
      .error (.validationError ("Unexpected error: " ++ m))
  | .ok a => .ok a

/-- Embeds the operation-boundary try/except shared by the four public
EasyPostUtils operations (easypost.py lines 444-445, 658-659, 720-721,
762-763): a normal result is returned as-is, any exception becomes a
show_error_alert (the Bool) and the operation returns None. -/
def op_boundary {α : Type} (inner : Except PyExc α) :
    Except PyExc (Option α × Bool) :=
  match inner with
  | .ok a => .ok (some a, false)
  | .error _ => .ok (none, true)

/-- Embeds the control flow of get_available_services around its
boundary (easypost.py lines 146-228 and 444-445): the early return of []
when disabled or keyless, then the pre-try validations (empty exploded
parcel list at line 152; missing billing zip for a 6-character
third-party account at lines 193-195), then the try/except boundary
around the request and filtering phase, whose outcome is inner. -/
def get_available_services_top (enabled key_present : Bool)
    (rows : List ParcelRow) (bill_3p : Bool) (clean zip3p : String)
    (inner : Except PyExc (List Service)) :
    Except PyExc (Option (List Service) × Bool) :=
  if !(enabled && key_present) then .ok (some [], false)
  else if (build_parcel_list rows).isEmpty then
    .error (.validationError "No parcel data supplied to EasyPost.")
  else if bill_3p && (clean.length == 6) && (zip3p == "") then
    .error (.validationError
      "Please fill Customer Account and Billing ZIP for third-party billing.")
  else op_boundary inner

/-- How a Python caller observes one of the embedded operations: a
distinguished early-return of the empty list, a normal value, or None
reached through the alert path. -/
inductive OpRet (α : Type) where
  | emptyList
  | value (a : α)
  | noneRet
  deriving DecidableEq, Repr

/-- Embeds the boundary of EasyPostUtils.create_shipment (easypost.py
lines 450-659): early [] when disabled or keyless, then the whole body in
try/except returning None with a non-fatal alert on any exception. -/
def create_shipment_op {α : Type} (enabled key_present : Bool)
    (inner : Except PyExc α) : Except PyExc (OpRet α × Bool) :=
  if !(enabled && key_present) then .ok (.emptyList, false)
  else match inner with
    | .ok a => .ok (.value a, false)
    | .error _ => .ok (.noneRet, true)

/-- Embeds the boundary of EasyPostUtils.get_label (easypost.py lines
661-721): the whole body sits inside try/except returning None with a
non-fatal alert on any exception. -/
def get_label_op {α : Type} (inner : Except PyExc α) :
    Except PyExc (OpRet α × Bool) :=
  match inner with
  | .ok a => .ok (.value a, false)
  | .error _ => .ok (.noneRet, true)

/-- Embeds the boundary of EasyPostUtils.get_tracking_data (easypost.py
lines 724-763): the whole body sits inside try/except returning None with
a non-fatal alert on any exception. -/
def get_tracking_data_op {α : Type} (inner : Except PyExc α) :
    Except PyExc (OpRet α × Bool) :=
  match inner with
  | .ok a => .ok (.value a, false)
  | .error _ => .ok (.noneRet, true)

/-! Top-level dispatch in fetch_shipping_rates. -/

/-- The enabled flags and pickup type read at the start of
fetch_shipping_rates (shipping.py lines 39-41 and 79). -/
structure DispatchFlags where
  letmeship : Bool
  sendcloud : Bool
  easypost : Bool
  pickupCompany : Bool
  deriving DecidableEq, Repr

/-- Embeds which provider clients fetch_shipping_rates dispatches a rate
request to (shipping.py lines 46, 79 and 87): LetMeShip when enabled,
SendCloud when enabled and picking up from a company, EasyPost when
enabled and the parcel-row list has exactly one row. -/
def providers_dispatched (f : DispatchFlags) (rows : List ParcelRow) :
    List String :=
  (if f.letmeship then ["LetMeShip"] else []) ++
  (if f.sendcloud && f.pickupCompany then ["SendCloud"] else []) ++
  (if f.easypost && (rows.length == 1) then ["EasyPost"] else [])

/-! Phone normalization of the two carrier-direct clients. -/

/-- Embeds FedExDirect._phone (fedex_direct.py lines 184-194): a falsy
phone yields the empty string, otherwise the digits-only 15-char-truncated
number, with a frappe.throw when fewer than 10 digits remain. -/
def fedex_phone (raw : Option String) : Except PyExc String :=
  match raw with
  | none => .ok ""
  | some r =>
    if r = "" then .ok ""
    else
      let num := clean_phone r
      if num.length < 10 then
        .error (.validationError
          ("Invalid phone number " ++ r ++ ": Must have at least 10 digits for FedEx."))
      else .ok num

/-- Embeds UPSDirect._phone (ups_direct.py lines 132-142): a falsy phone
or one whose digits-only 15-char-truncated form has fewer than 10 digits
yields None (the phone block is omitted); otherwise the wrapped number.
The Except wrapper records that this function raises nothing. -/
def ups_phone (raw : Option String) : Except PyExc (Option String) :=
  match raw with
  | none => .ok none
  | some r =>
    if r = "" then .ok none
    else
      let num := clean_phone r
      if num.length < 10 then .ok none
      else .ok (some num)

/-! Label storage and merge. -/

/-- The private file store of the host ERP, threaded explicitly: a list of
(filename, content) pairs in insertion order. -/
structure FileStore where
  files : List (String × String)
  deriving DecidableEq, Repr

/-- Filenames present in a store. -/
def FileStore.names (st : FileStore) : List String :=
  st.files.map Prod.fst

/-- Embeds EasyPostUtils._save_zpl_content (easypost.py lines 122-135):
writes the content under a fresh uuid-based .zpl filename, inserts one
File record, and returns the absolute private URL.  fresh stands for the
uuid4 hex drawn by the call. -/
def save_zpl_content (base fresh : String) (st : FileStore)
    (content : String) : FileStore × String :=
  let fname := fresh ++ ".zpl"
  ({ files := st.files ++ [(fname, content)] },
   base ++ "/private/files/" ++ fname)

/-- Embeds EasyPostUtils._zpls_to_zpl (easypost.py lines 138-141): fetch
every truthy URL, join the contents with a blank line, save once. -/
def zpls_to_zpl (fetch : String → String) (base fresh : String)
    (st : FileStore) (urls : List String) : FileStore × String :=
  save_zpl_content base fresh st
    (String.intercalate "\n\n" ((urls.filter (fun u => u ≠ "")).map fetch))

/-- Abstract multi-page PDF assembly of the decoded images (Pillow save
with save_all at easypost.py lines 845-850); the exact bytes are opaque,
only their dependence on the page list matters here. -/
def pdf_render (imgs : List String) : String :=
  "PDF-PAGES:" ++ String.intercalate "|" imgs

/-- Embeds EasyPostUtils._pngs_to_pdf (easypost.py lines 830-859): fetch
and decode every URL (via HTTP or the private store, abstracted by
fetchImg), throw when no image was supplied, else write one uuid-named
.pdf file and return its absolute private URL. -/
def pngs_to_pdf (fetchImg : String → String) (base fresh : String)
    (st : FileStore) (urls : List String) :
    Except PyExc (FileStore × String) :=
  let imgs := urls.map fetchImg
  if imgs.isEmpty then
    .error (.validationError "No PNGs were supplied for PDF merge.")
  else
    let fname := fresh ++ ".pdf"
    .ok ({ files := st.files ++ [(fname, pdf_render imgs)] },
         base ++ "/private/files/" ++ fname)

/-- Embeds FedExDirect._save_label_content (fedex_direct.py lines
441-455): writes the content under a fresh uuid-based filename with the
given extension and returns the absolute private URL. -/
def save_label_content (base fresh ext : String) (st : FileStore)
    (content : String) : FileStore × String :=
  let fname := fresh ++ "." ++ ext
  ({ files := st.files ++ [(fname, content)] },
   base ++ "/private/files/" ++ fname)

/-- Abstract decode-plus-rotate of an inline base64 image payload
(easypost.py lines 804-806); the pixel bytes are opaque here. -/
def b64_decode_rotate (payload : String) : String :=
  "ROTATED:" ++ payload

/-- Python str.startswith, written over the character list so that
concrete instances evaluate inside the kernel. -/
def starts_with (s pre : String) : Bool :=
  s.toList.take pre.toList.length == pre.toList

/-- Embeds EasyPostUtils._save_base64_png (easypost.py lines 797-820): a
string that is not a data:image URI is returned unchanged without storing
anything; a data URI is decoded, rotated, stored under a fresh uuid-based
filename with the extension taken from the header, and its absolute
private URL returned. -/
def save_base64_png (base fresh : String) (st : FileStore)
    (data_uri ext payload : String) : FileStore × String :=
  if !(starts_with data_uri "data:image") then (st, data_uri)
  else
    let fname := fresh ++ "." ++ ext
    ({ files := st.files ++ [(fname, b64_decode_rotate payload)] },
     base ++ "/private/files/" ++ fname)

/-! Purchase of an EasyPost multi-parcel Order. -/

/-- One sub-shipment of an Order buy response as read at easypost.py
lines 569-588: the tracking code and the postage_label URLs (all via
.get, hence optional), and the selected_rate rate (missing defaults 0). -/
structure OrderSub where
  tracking_code : Option String := none
  label_zpl_url : Option String := none
  label_png_url : Option String := none
  label_url : Option String := none
  rate : ℚ := 0
  deriving DecidableEq, Repr

/-- An Order buy response (easypost.py lines 565-588): the optional error
message, the order id, and the sub-shipments. -/
structure OrderBuyResp where
  error : Option String := none
  id : String
  shipments : List OrderSub
  deriving DecidableEq, Repr

/-- Label URL selected per sub-shipment (easypost.py lines 570-578): the
truthy ZPL URL, else the truthy PNG URL or plain label URL; none when the
shipment offers nothing truthy. -/
def sub_label_url (s : OrderSub) : Option String :=
  match truthy s.label_zpl_url with
  | some u => some u
  | none =>
    match truthy s.label_png_url with
    | some u => some u
    | none => truthy s.label_url

/-- The label_urls list collected over an Order buy response
(easypost.py lines 569-578). -/
def order_label_urls (resp : OrderBuyResp) : List String :=
  resp.shipments.filterMap sub_label_url

/-- Embeds EasyPostUtils.get_carrier (easypost.py lines 789-792). -/
def get_carrier (carrier_name : String) (post_or_get : Option String) : String :=
  if carrier_name = "easypost" || carrier_name = "EasyPost" then
    (if post_or_get = some "get" then "EasyPost" else "easypost")
  else
    (if post_or_get = some "get" then str_upper carrier_name else str_lower carrier_name)

/-- The canonical purchase record returned by the Order branch of
create_shipment (easypost.py lines 590-603). -/
structure OrderPurchase where
  service_provider : String
  shipment_id : String
  carrier : String
  carrier_service : String
  shipment_amount : ℚ
  awb_number : String
  label_bundle : List String
  shipping_label : String
  deriving DecidableEq, Repr

/-- Embeds the EasyPost multi-parcel Order branch of create_shipment
(easypost.py lines 555-603), from the parsed buy response onwards: throw
on an API error or when no label URL was returned; otherwise merge all
sub-shipment ZPLs into one stored file, join the truthy tracking codes
with a comma, sum the selected rates (falling back to the quoted total
when the sum is zero), and return the purchase record. -/
def order_buy (fetch : String → String) (base fresh : String)
    (st : FileStore) (svcCarrier svcName : String) (quotedTotal : ℚ)
    (resp : OrderBuyResp) : Except PyExc (FileStore × OrderPurchase) :=
  match resp.error with
  | some m => .error (.validationError ("EasyPost Error: " ++ m))
  | none =>
    let label_urls := order_label_urls resp
    if label_urls.isEmpty then
      .error (.validationError "EasyPost did not return any label URLs for this Order.")
    else
      let stored := zpls_to_zpl fetch base fresh st label_urls
      let tracking_codes := resp.shipments.filterMap (fun s => truthy s.tracking_code)
      let shipment_amount := (resp.shipments.map (fun s => s.rate)).sum
      .ok (stored.1,
        { service_provider := "EasyPost"
          shipment_id := resp.id
          carrier := get_carrier svcCarrier (some "post")
          carrier_service := svcName
          shipment_amount := if shipment_amount = 0 then quotedTotal else shipment_amount
          awb_number := String.intercalate ", " tracking_codes
          label_bundle := label_urls
          shipping_label := stored.2 })

/-! Auxiliary projections used to state the parcel-explosion claim. -/

/-- A parcel row with its count key removed and every other key kept:
what the spec phrase row-minus-the-count-field denotes. -/
structure ParcelRowNC where
  length : ℚ
  width : ℚ
  height : ℚ
  weight : ℚ
  parent : Option String
  deriving DecidableEq, Repr

/-- Drop only the count key from a row. -/
def row_minus_count (r : ParcelRow) : ParcelRowNC :=
  { length := r.length, width := r.width, height := r.height,
    weight := r.weight, parent := r.parent }

/-- A produced parcel dict read back as a row-without-count: it has no
parent key, so that slot is none. -/
def parcel_as_row (p : Parcel) : ParcelRowNC :=
  { length := p.length, width := p.width, height := p.height,
    weight := p.weight, parent := none }

/-! Concrete fixtures used by counterexamples and witnesses. -/

/-- A 12x10x6 inch, 80 oz parcel row with count 1. -/
def rowOne : ParcelRow := { length := 12, width := 10, height := 6, weight := 80, count := some 1 }

/-- Two identical parcel rows. -/
def rowsTwo : List ParcelRow := [rowOne, rowOne]

/-- A parcel row whose count is 0. -/
def rowZeroCount : ParcelRow :=
  { length := 1, width := 2, height := 3, weight := 4, count := some 0 }

/-- A parcel row carrying the parent link of its Shipment, as the rows
handled by the orchestrator do (easypost.py line 165). -/
def rowWithParent : ParcelRow :=
  { length := 1, width := 2, height := 3, weight := 4,
    count := some 2, parent := some "SHIP-0001" }

/-- Two EasyPost rates: a UPS-pooled one and a FedEx-pooled one. -/
def epEx : List EPRate :=
  [{ carrier := "UPSDAP", service := "NextDayAir", rate := 15,
     delivery_days := some 1, id := "rate_ups" },
   { carrier := "FedEx", service := "FEDEX_GROUND", rate := 9,
     delivery_days := some 4, id := "rate_fx" }]

/-- One UPS direct rated shipment. -/
def upsEx : List UPSRated :=
  [{ code := some "03", description := some "Ground", monetary := 21,
     guaranteed_days := some 3 }]

/-- One FedEx direct rated shipment. -/
def fxEx : List FedExRated :=
  [{ serviceType := some "FEDEX_GROUND", totalNetCharge := 25,
     transit := some "TWO_DAYS" }]

/-- A label fetch environment for witnesses: the content served at a URL. -/
def fetchEx (u : String) : String := "ZPL-OF:" ++ u

/-- A two-sub-shipment Order buy response. -/
def respEx : OrderBuyResp :=
  { error := none
    id := "order_123"
    shipments :=
      [{ tracking_code := some "1Z111", label_zpl_url := some "https://a/1.zpl", rate := 10 },
       { tracking_code := some "1Z222", label_zpl_url := some "https://a/2.zpl", rate := 12 }] }

/-! Helper lemmas. -/

/-- Folding the append of replicated parcels equals joining the mapped
replications. -/
theorem build_foldl_eq (rows : List ParcelRow) (acc : List Parcel) :
    rows.foldl (fun a r => a ++ List.replicate (row_qty r).toNat (row_parcel r)) acc
      = acc ++ (rows.map (fun r => List.replicate (row_qty r).toNat (row_parcel r))).flatten := by
  induction rows generalizing acc with
  | nil => simp
  | cons r rs ih => simp [List.foldl_cons, ih]

/-- build_parcel_list in join form. -/
theorem build_parcel_list_eq_join (rows : List ParcelRow) :
    build_parcel_list rows
      = (rows.map (fun r => List.replicate (row_qty r).toNat (row_parcel r))).flatten := by
  simpa using build_foldl_eq rows []

/-- Length of the exploded parcel list. -/
theorem build_parcel_list_length (rows : List ParcelRow) :
    (build_parcel_list rows).length
      = (rows.map (fun r => (row_qty r).toNat)).sum := by
  simp [build_parcel_list_eq_join, List.length_flatten, Function.comp_def]

/-! Claim C5. -/

/-- C5: the claim that the exploded parcel list has exactly the sum of
the row counts as its length, each entry identical to its source row
minus the count field, is false: a row whose count is 0 still produces
one parcel (Python treats 0 as falsy and substitutes 1), and the
produced parcel keeps only the four dimensional keys, dropping the
parent key the rows carry. -/
theorem C5_counterexample :
    (¬ ((build_parcel_list [rowZeroCount]).length : Int)
        = ([rowZeroCount].map (fun r => r.count.getD 1)).sum) ∧
    (¬ (build_parcel_list [rowWithParent]).map parcel_as_row
        = List.replicate 2 (row_minus_count rowWithParent)) := by
  constructor <;> decide

/-- C5 amended: the exploded parcel list is the concatenation, row by
row, of qty copies of the four-field parcel projection of the row, where
qty is the count when present and nonzero (clamped at zero for negative
counts) and 1 when the count is missing or 0; in particular its length is
the sum of those quantities and every entry holds exactly the length,
width, height and weight of its source row. -/
theorem C5_parcel_explosion (rows : List ParcelRow) :
    build_parcel_list rows
      = (rows.map (fun r => List.replicate (row_qty r).toNat (row_parcel r))).flatten ∧
    (build_parcel_list rows).length
      = (rows.map (fun r => (row_qty r).toNat)).sum := by
  exact ⟨build_parcel_list_eq_join rows, build_parcel_list_length rows⟩

/-! Claim C7. -/

/-- C7: the claim that for both carrier-direct clients a cleaned phone
number of fewer than 10 digits makes the call fail with a validation
error is false: the UPS client returns None (the phone block is simply
omitted, no error), and the FedEx client returns the empty string without
error when the phone is absent. -/
theorem C7_counterexample :
    ups_phone (some "555-123") = .ok none ∧
    (ups_phone (some "555-123")).isOk = true ∧
    fedex_phone none = .ok "" := by
  refine ⟨by decide, by decide, by decide⟩

/-- C7 amended: both clients reduce the phone to at most 15 digits; the
FedEx client raises a validation error exactly when a non-empty phone
cleans to fewer than 10 digits and returns the empty string for an
absent or empty phone, while the UPS client never raises and instead
returns None (omitting the phone block) in those cases; both return the
cleaned number when it has at least 10 digits. -/
theorem C7_phone_validation (raw : Option String) :
    (∀ r, raw = some r → r ≠ "" → (clean_phone r).length < 10 →
        ups_phone raw = .ok none ∧ ∃ e, fedex_phone raw = .error e) ∧
    (∀ r, raw = some r → 10 ≤ (clean_phone r).length →
        ups_phone raw = .ok (some (clean_phone r))
          ∧ fedex_phone raw = .ok (clean_phone r)) ∧
    ((raw = none ∨ raw = some "") →
        ups_phone raw = .ok none ∧ fedex_phone raw = .ok "") ∧
    (∀ e, ups_phone raw ≠ .error e) ∧
    (∀ r, raw = some r →
        ((clean_phone r).toList.all (fun c => c.isDigit) = true
          ∧ (clean_phone r).length ≤ 15)) := by
  refine ⟨?_, ?_, ?_, ?_, ?_⟩
  · rintro r rfl hre hlt
    refine ⟨?_, ?_⟩
    · simp [ups_phone, hre, hlt]
    · refine ⟨.validationError
          ("Invalid phone number " ++ r ++ ": Must have at least 10 digits for FedEx."), ?_⟩
      simp [fedex_phone, hre, hlt]
  · rintro r rfl hge
    have hre : r ≠ "" := by
      rintro rfl
      simp [clean_phone] at hge
    have hnlt : ¬ (clean_phone r).length < 10 := by omega
    exact ⟨by simp [ups_phone, hre, hnlt], by simp [fedex_phone, hre, hnlt]⟩
  · rintro (rfl | rfl) <;> exact ⟨rfl, rfl⟩
  · intro e he
    rcases raw with _ | r
    · exact Except.noConfusion he
    · by_cases hre : r = ""
      · subst hre; exact Except.noConfusion he
      · by_cases hlt : (clean_phone r).length < 10
        · rw [show ups_phone (some r) = .ok none by simp [ups_phone, hre, hlt]] at he
          exact Except.noConfusion he
        · rw [show ups_phone (some r) = .ok (some (clean_phone r)) by
            simp [ups_phone, hre, hlt]] at he
          exact Except.noConfusion he
  · rintro r rfl
    constructor
    · rw [List.all_eq_true]
      intro c hc
      have hc1 : c ∈ r.toList.filter (fun c => c.isDigit) := by
        simpa [clean_phone] using List.mem_of_mem_take hc
      exact (List.mem_filter.mp hc1).2
    · simp [clean_phone, String.length]

/-- A truthy result is never the empty string. -/
theorem truthy_ne_empty {o : Option String} {u : String}
    (h : truthy o = some u) : u ≠ "" := by
  rcases o with _ | s
  · exact Option.noConfusion h
  · by_cases hs : s = ""
    · simp [truthy, hs] at h
    · simp [truthy, hs] at h
      exact h ▸ hs

/-- A selected sub-shipment label URL is never the empty string. -/
theorem sub_label_url_ne_empty {s : OrderSub} {u : String}
    (h : sub_label_url s = some u) : u ≠ "" := by
  unfold sub_label_url at h
  rcases hz : truthy s.label_zpl_url with _ | z
  · rw [hz] at h
    rcases hp : truthy s.label_png_url with _ | p
    · rw [hp] at h
      exact truthy_ne_empty h
    · rw [hp] at h
      cases h
      exact truthy_ne_empty hp
  · rw [hz] at h
    cases h
    exact truthy_ne_empty hz

/-- Collected order label URLs are never the empty string. -/
theorem order_label_urls_ne_empty (resp : OrderBuyResp) :
    ∀ u ∈ order_label_urls resp, u ≠ "" := by
  intro u hu
  obtain ⟨s, _, hs⟩ := List.mem_filterMap.mp hu
  exact sub_label_url_ne_empty hs

/-- filterMap keeps the length when the function is everywhere some. -/
theorem filterMap_all_some_length {α β : Type} (f : α → Option β) (l : List α)
    (h : ∀ a ∈ l, (f a).isSome = true) :
    (l.filterMap f).length = l.length := by
  induction l with
  | nil => rfl
  | cons a l ih =>
    rcases ha : f a with _ | b
    · have hsome := h a (List.mem_cons_self a l)
      rw [ha] at hsome
      simp at hsome
    · simp [List.filterMap_cons, ha,
        ih (fun x hx => h x (List.mem_cons_of_mem a hx))]

/-- Under the all-tracking-codes-present hypothesis, the truthy filterMap
over tracking codes is the plain map of their values. -/
theorem filterMap_truthy_tracking (l : List OrderSub)
    (h : ∀ s ∈ l, ∃ c, s.tracking_code = some c ∧ c ≠ "") :
    l.filterMap (fun s => truthy s.tracking_code)
      = l.map (fun s => s.tracking_code.getD "") := by
  induction l with
  | nil => rfl
  | cons a l ih =>
    obtain ⟨c, hc, hcne⟩ := h a (List.mem_cons_self a l)
    have hta : truthy (some c) = some c := by simp [truthy, hcne]
    simp only [List.filterMap_cons, hc, hta, List.map_cons, Option.getD_some]
    exact congrArg (List.cons c) (ih (fun x hx => h x (List.mem_cons_of_mem a hx)))

/-! Claim C8. -/

/-- C8: buying an aggregator multi-parcel order whose response carries a
tracking code and a label URL on each of its sub-shipments returns the
comma-joined concatenation of all tracking codes as awb_number and
produces exactly one merged label artifact — a single new stored file
whose content is the fetched sub-shipment labels joined by a blank line —
as the shipping_label. -/
theorem C8_order_purchase (fetch : String → String) (base fresh : String)
    (st : FileStore) (svcCarrier svcName : String) (qt : ℚ)
    (resp : OrderBuyResp)
    (herr : resp.error = none)
    (hne : resp.shipments ≠ [])
    (htr : ∀ s ∈ resp.shipments, ∃ c, s.tracking_code = some c ∧ c ≠ "")
    (hlb : ∀ s ∈ resp.shipments, (sub_label_url s).isSome = true) :
    ∃ res : OrderPurchase,
      order_buy fetch base fresh st svcCarrier svcName qt resp
        = .ok ({ files := st.files
            ++ [(fresh ++ ".zpl",
                 String.intercalate "\n\n" ((order_label_urls resp).map fetch))] }, res)
      ∧ res.awb_number = String.intercalate ", "
          (resp.shipments.map (fun s => s.tracking_code.getD ""))
      ∧ res.shipping_label = base ++ "/private/files/" ++ fresh ++ ".zpl"
      ∧ res.label_bundle = order_label_urls resp
      ∧ (order_label_urls resp).length = resp.shipments.length := by
  have hlen : (order_label_urls resp).length = resp.shipments.length :=
    filterMap_all_some_length _ _ hlb
  have hurlsne : order_label_urls resp ≠ [] := by
    intro hnil
    rw [hnil] at hlen
    rcases hsh : resp.shipments with _ | ⟨a, l⟩
    · exact hne hsh
    · rw [hsh] at hlen
      simp at hlen
  have hempty : (order_label_urls resp).isEmpty = false := by
    simpa [List.isEmpty_iff] using hurlsne
  have hfilt : (order_label_urls resp).filter (fun u => u ≠ "")
      = order_label_urls resp :=
    List.filter_eq_self.mpr
      (fun u hu => decide_eq_true (order_label_urls_ne_empty resp u hu))
  refine ⟨{ service_provider := "EasyPost"
            shipment_id := resp.id
            carrier := get_carrier svcCarrier (some "post")
            carrier_service := svcName
            shipment_amount :=
              if (resp.shipments.map (fun s => s.rate)).sum = 0 then qt
              else (resp.shipments.map (fun s => s.rate)).sum
            awb_number := String.intercalate ", "
              (resp.shipments.filterMap (fun s => truthy s.tracking_code))
            label_bundle := order_label_urls resp
            shipping_label := base ++ "/private/files/" ++ fresh ++ ".zpl" },
        ?_, ?_, rfl, rfl, hlen⟩
  · simp only [ne_eq, decide_not] at hfilt
    simp [order_buy, herr, hempty, zpls_to_zpl, save_zpl_content, hfilt,
      String.append_assoc]
  · simp [filterMap_truthy_tracking resp.shipments htr]

/-- C8 witness: a concrete two-sub-shipment order purchase joins both
tracking codes and stores one merged ZPL file. -/
theorem C8_order_purchase_witness :
    (order_buy fetchEx "https://erp.example.com" "u1" (FileStore.mk [])
        "FedExDefault" "Ground" 22 respEx).map (fun p => p.2.awb_number)
      = .ok "1Z111, 1Z222" ∧
    (order_buy fetchEx "https://erp.example.com" "u1" (FileStore.mk [])
        "FedExDefault" "Ground" 22 respEx).map (fun p => p.1.files.length)
      = .ok 1 ∧
    (order_buy fetchEx "https://erp.example.com" "u1" (FileStore.mk [])
        "FedExDefault" "Ground" 22 respEx).map (fun p => p.2.shipping_label)
      = .ok "https://erp.example.com/private/files/u1.zpl" ∧
    (order_label_urls respEx).length = 2 := by
  obtain ⟨res, h1, h2, h3, _, h5⟩ :=
    C8_order_purchase fetchEx "https://erp.example.com" "u1" (FileStore.mk [])
      "FedExDefault" "Ground" 22 respEx rfl (by simp [respEx])
      (by
        intro s hs
        simp [respEx] at hs
        rcases hs with rfl | rfl
        · exact ⟨"1Z111", rfl, by decide⟩
        · exact ⟨"1Z222", rfl, by decide⟩)
      (by
        intro s hs
        simp [respEx] at hs
        rcases hs with rfl | rfl <;> rfl)
  refine ⟨?_, ?_, ?_, ?_⟩
  · rw [h1, Except.map]
    rw [h2]
    decide
  · rw [h1, Except.map]
    rfl
  · rw [h1, Except.map]
    rw [h3]
    decide
  · rw [h5]
    decide

/-! Claim C9. -/

/-- C9: every label-conversion operation (ZPL save and merge, PNG-to-PDF
merge, inline base64 decode, FedEx label save) stores exactly one new
artifact under a fresh uuid-derived filename, leaves every existing file
untouched, and returns the absolute private URL of the new file; with the
uuid fresh, no call overwrites or reuses an existing name. -/
theorem C9_label_artifacts (fetchImg : String → String)
    (base fresh ext : String) (st : FileStore)
    (content data_uri payload : String) (urls : List String)
    (hz : (fresh ++ ".zpl") ∉ st.names)
    (hp : (fresh ++ ".pdf") ∉ st.names)
    (he : (fresh ++ "." ++ ext) ∉ st.names)
    (hu : urls ≠ [])
    (hd : starts_with data_uri "data:image" = true) :
    ((save_zpl_content base fresh st content).1.files
        = st.files ++ [(fresh ++ ".zpl", content)]
      ∧ (save_zpl_content base fresh st content).2
        = base ++ "/private/files/" ++ fresh ++ ".zpl"
      ∧ (fresh ++ ".zpl") ∉ st.names) ∧
    (pngs_to_pdf fetchImg base fresh st urls
        = .ok ({ files := st.files
                  ++ [(fresh ++ ".pdf", pdf_render (urls.map fetchImg))] },
               base ++ "/private/files/" ++ fresh ++ ".pdf")
      ∧ (fresh ++ ".pdf") ∉ st.names) ∧
    ((save_label_content base fresh ext st content).1.files
        = st.files ++ [(fresh ++ "." ++ ext, content)]
      ∧ (save_label_content base fresh ext st content).2
        = base ++ "/private/files/" ++ fresh ++ "." ++ ext
      ∧ (fresh ++ "." ++ ext) ∉ st.names) ∧
    ((save_base64_png base fresh st data_uri ext payload).1.files
        = st.files ++ [(fresh ++ "." ++ ext, b64_decode_rotate payload)]
      ∧ (save_base64_png base fresh st data_uri ext payload).2
        = base ++ "/private/files/" ++ fresh ++ "." ++ ext) := by
  have hm : (urls.map fetchImg).isEmpty = false := by
    rcases urls with _ | ⟨u, l⟩
    · exact absurd rfl hu
    · rfl
  refine ⟨⟨rfl, ?_, hz⟩, ⟨?_, hp⟩, ⟨rfl, ?_, he⟩, ?_, ?_⟩
  · simp [save_zpl_content, String.append_assoc]
  · simp [pngs_to_pdf, hm, String.append_assoc]
  · simp [save_label_content, String.append_assoc]
  · simp [save_base64_png, hd]
  · simp [save_base64_png, hd, String.append_assoc]

/-- C9 witness: a concrete run of all four conversion paths on an empty
store. -/
theorem C9_label_artifacts_witness :
    (save_zpl_content "https://erp.example.com" "u2" (FileStore.mk []) "ZPLDATA").2
      = "https://erp.example.com/private/files/u2.zpl" ∧
    pngs_to_pdf fetchEx "https://erp.example.com" "u2" (FileStore.mk [])
        ["https://a/1.png"]
      = .ok ({ files := [("u2.pdf", pdf_render [fetchEx "https://a/1.png"])] },
             "https://erp.example.com/private/files/u2.pdf") := by
  have h := C9_label_artifacts fetchEx "https://erp.example.com" "u2" "png"
      (FileStore.mk []) "ZPLDATA" "data:image/png;base64,AAAA" "AAAA"
      ["https://a/1.png"] (by simp [FileStore.names]) (by simp [FileStore.names])
      (by simp [FileStore.names]) (by simp) (by decide)
  exact ⟨h.1.2.1, by simpa using h.2.1.1⟩

/-! Claim C2. -/

/-- C2: the claim that fetch_shipping_rates dispatches to the aggregator
client whenever it is enabled, regardless of parcel count, is false: with
the EasyPost integration enabled and two parcel rows, the dispatch gate
at shipping.py line 87 requires exactly one parcel row, so no rate
request is sent to the aggregator. -/
theorem C2_counterexample :
    (DispatchFlags.mk false false true false).easypost = true ∧
    "EasyPost" ∉ providers_dispatched (DispatchFlags.mk false false true false) rowsTwo := by
  constructor
  · rfl
  · decide

/-- C2 amended: fetch_shipping_rates dispatches a rate request to the
aggregator client exactly when the integration is enabled AND the
parcel-row list has exactly one row; the carrier-direct clients are never
dispatched at the top level (their conditional dispatch happens inside
the aggregator rate-shopping call). -/
theorem C2_dispatch (f : DispatchFlags) (rows : List ParcelRow) :
    ("EasyPost" ∈ providers_dispatched f rows
        ↔ f.easypost = true ∧ rows.length = 1) ∧
    "UPS" ∉ providers_dispatched f rows ∧
    "FedEx" ∉ providers_dispatched f rows := by
  obtain ⟨fl, fs, fe, fp⟩ := f
  by_cases h1 : rows.length = 1 <;>
    cases fl <;> cases fs <;> cases fe <;> cases fp <;>
    simp [providers_dispatched, h1]

/-- C2 witness: with EasyPost enabled and one parcel row, the aggregator
is dispatched. -/
theorem C2_dispatch_witness :
    "EasyPost" ∈ providers_dispatched (DispatchFlags.mk true true true true) [rowOne] := by
  exact (C2_dispatch (DispatchFlags.mk true true true true) [rowOne]).1.mpr ⟨rfl, rfl⟩

/-! Claim C3. -/

/-- C3: the claim that a carrier-direct HTTP error is propagated out of
the rate-shopping call to its caller is false: the HTTPError re-raised by
the carrier block is caught by the outer try/except of
get_available_services, which surfaces a non-fatal alert and returns
None — no exception leaves the call. -/
theorem C3_counterexample :
    get_available_services_top true true [rowOne] false "" ""
        (carrier_block_handler (.error (.httpError "UPS error 400")))
      = .ok (none, true) ∧
    (get_available_services_top true true [rowOne] false "" ""
        (carrier_block_handler (.error (.httpError "UPS error 400")))).isOk
      = true := by
  refine ⟨by decide, by decide⟩

/-- C3 amended: during rate-shopping a carrier-direct HTTP error passes
the carrier-specific handler unchanged (it is re-raised, unlike generic
exceptions, which that handler converts to a validation error), but it is
then caught by the operation-boundary catch-all: the rate-shopping call
returns None with a non-fatal alert instead of raising, exactly as it
does for aggregator-side exceptions. -/
theorem C3_error_boundary (enabled key : Bool) (rows : List ParcelRow)
    (bill_3p : Bool) (clean zip3p : String)
    (h1 : (build_parcel_list rows).isEmpty = false)
    (h2 : (bill_3p && (clean.length == 6) && (zip3p == "")) = false)
    (h3 : enabled = true) (h4 : key = true) :
    (∀ d, carrier_block_handler (α := List Service) (.error (.httpError d))
        = .error (.httpError d)) ∧
    (∀ m, carrier_block_handler (α := List Service) (.error (.generic m))
        = .error (.validationError ("Unexpected error: " ++ m))) ∧
    (∀ e, get_available_services_top enabled key rows bill_3p clean zip3p (.error e)
        = .ok (none, true)) ∧
    (∀ l, get_available_services_top enabled key rows bill_3p clean zip3p (.ok l)
        = .ok (some l, false)) := by
  subst h3 h4
  refine ⟨fun d => rfl, fun m => rfl, fun e => ?_, fun l => ?_⟩ <;>
    simp [get_available_services_top, h1, h2, op_boundary]

/-- C3 witness: a concrete FedEx HTTP 500 during rate shopping yields the
alert-and-None outcome. -/
theorem C3_error_boundary_witness :
    get_available_services_top true true [rowOne] true "510001234" "92805"
        (.error (.httpError "FedEx error 500")) = .ok (none, true) := by
  exact (C3_error_boundary true true [rowOne] true "510001234" "92805"
      (by decide) (by decide) rfl rfl).2.2.1 (.httpError "FedEx error 500")

/-! Claim C10. -/

/-- C10: the claim that every public EasyPostUtils operation wraps its
whole body in a catch-all returning None is false for
get_available_services: the validation throw for an empty parcel list
sits before the try block, so that exception escapes the operation
instead of being converted to an alert with a None return. -/
theorem C10_counterexample :
    get_available_services_top true true [] false "" "" (.ok [])
      = .error (.validationError "No parcel data supplied to EasyPost.") ∧
    (get_available_services_top true true [] false "" "" (.ok [])).isOk
      = false := by
  refine ⟨by decide, by decide⟩

/-- C10 amended: create_shipment, get_label and get_tracking_data wrap
their whole bodies in the catch-all (any inner exception — including a
validation error thrown mid-operation — yields a non-fatal alert and a
None return, and none of the three ever lets an exception escape), while
get_available_services wraps only its request-and-filter phase: its
pre-try validations, such as the empty-parcel-list throw, escape to the
caller. -/
theorem C10_operation_boundaries {α : Type} (enabled key : Bool)
    (inner : Except PyExc α) (innerL : Except PyExc (List Service))
    (rows : List ParcelRow) (bill_3p : Bool) (clean zip3p : String) :
    (∀ e, inner = .error e → (enabled && key) = true →
        create_shipment_op enabled key inner = .ok (.noneRet, true)) ∧
    (∀ v, create_shipment_op enabled key inner ≠ .error v) ∧
    (∀ e, inner = .error e → get_label_op inner = .ok (.noneRet, true)) ∧
    (∀ v, get_label_op inner ≠ .error v) ∧
    (∀ e, inner = .error e → get_tracking_data_op inner = .ok (.noneRet, true)) ∧
    (∀ v, get_tracking_data_op inner ≠ .error v) ∧
    ((enabled && key) = true → (build_parcel_list rows).isEmpty = true →
        get_available_services_top enabled key rows bill_3p clean zip3p innerL
          = .error (.validationError "No parcel data supplied to EasyPost.")) := by
  refine ⟨?_, ?_, ?_, ?_, ?_, ?_, ?_⟩
  · rintro e rfl hek
    simp [create_shipment_op, hek]
  · intro v hv
    rcases inner with e | a <;> by_cases hek : (enabled && key) = true <;>
      simp [create_shipment_op, hek] at hv
  · rintro e rfl; rfl
  · intro v hv
    rcases inner with e | a <;> simp [get_label_op] at hv
  · rintro e rfl; rfl
  · intro v hv
    rcases inner with e | a <;> simp [get_tracking_data_op] at hv
  · intro hek hrows
    simp [get_available_services_top, hek, hrows]

/-- C10 witness: with the integration enabled, a failed purchase yields
the alert-and-None outcome rather than an error, and an empty parcel
list makes the rate-shopping operation raise. -/
theorem C10_operation_boundaries_witness :
    create_shipment_op (α := OrderPurchase) true true
        (.error (.validationError "FedEx did not return any labels."))
      = .ok (.noneRet, true) ∧
    get_available_services_top true true [] false "" "" (.ok [])
      = .error (.validationError "No parcel data supplied to EasyPost.") := by
  have h := C10_operation_boundaries (α := OrderPurchase) true true
      (.error (.validationError "FedEx did not return any labels.")) (.ok [])
      [] false "" ""
  exact ⟨h.1 _ rfl rfl, h.2.2.2.2.2.2 rfl (by decide)⟩

/-! Claim C6. -/

/-- C6: when aggregator rates are normalized into quotes, the price of a
quote equals the API rate times the parcel count on the non-order path
and the API rate alone on the order path. -/
theorem C6_price_scaling (ep : List EPRate) (pc : Nat) (oid : String) :
    ∀ s ∈ epServices ep pc oid, ∃ r ∈ ep,
      (s.is_order = true → s.total_price = r.rate) ∧
      (s.is_order = false → s.total_price = r.rate * (pc : ℚ)) := by
  intro s hs
  simp only [epServices, List.mem_map] at hs
  obtain ⟨r, hr, rfl⟩ := hs
  refine ⟨r, hr, ?_, ?_⟩ <;> intro h <;> by_cases hpc : pc > 1
  · simp [get_service_dict, hpc]
  · simp [get_service_dict, hpc] at h
  · simp [get_service_dict, hpc] at h
  · simp [get_service_dict, hpc]

/-- C6 witness: an order-path quote for a rate of 5 is priced 5 even with
three parcels. -/
theorem C6_price_scaling_witness :
    (get_service_dict (EPRate.mk "UPSDAP" "NextDayAir" 5 none "rate_1") 1 "order_1" true).total_price
      = 5 := by
  have h := C6_price_scaling [EPRate.mk "UPSDAP" "NextDayAir" 5 none "rate_1"] 3 "order_1"
      (get_service_dict (EPRate.mk "UPSDAP" "NextDayAir" 5 none "rate_1") 1 "order_1" true)
      (by norm_num [epServices])
  obtain ⟨r, hr, h1, _⟩ := h
  have hr2 : r = EPRate.mk "UPSDAP" "NextDayAir" 5 none "rate_1" := by
    simpa using hr
  subst hr2
  exact h1 rfl

/-! Membership decomposition of the quote pipeline. -/

/-- A quote surviving the collision filter respects its predicate. -/
theorem mem_services_after_collision {ep : List EPRate} {pc : Nat}
    {oid : String} {s : Service}
    (hs : s ∈ services_after_collision ep pc oid) :
    (pc > 1 → ccUp s ≠ "FEDEXDEFAULT") ∧ (¬ pc > 1 → ccUp s ≠ "FEDEX") := by
  unfold services_after_collision collision_filter at hs
  by_cases hpc : pc > 1
  · rw [if_pos hpc] at hs
    have hpred := (List.mem_filter.mp hs).2
    exact ⟨fun _ => by simpa using hpred, fun hcon => absurd hpc hcon⟩
  · rw [if_neg hpc] at hs
    have hpred := (List.mem_filter.mp hs).2
    exact ⟨fun hcon => absurd hcon hpc, fun _ => by simpa using hpred⟩

/-- A quote after stage 2 is a filtered EasyPost quote or a sender-billed
FedEx direct quote guarded by its condition. -/
theorem mem_services_after_sender {ep : List EPRate} {fxR : List FedExRated}
    {pc : Nat} {bill : Bool} {oid fs fz : String} {s : Service}
    (hs : s ∈ services_after_sender ep fxR pc bill oid fs fz) :
    s ∈ services_after_collision ep pc oid
    ∨ (fedex_sender_called pc bill = true
        ∧ ∃ r ∈ fxR, s = fedex_sender_service fs fz r) := by
  unfold services_after_sender at hs
  by_cases hc : fedex_sender_called pc bill = true
  · rw [if_pos hc] at hs
    rcases List.mem_append.mp hs with h | h
    · exact Or.inl h
    · obtain ⟨r, hr, hrr⟩ := List.mem_map.mp h
      exact Or.inr ⟨hc, r, hr, hrr.symm⟩
  · rw [if_neg hc] at hs
    exact Or.inl hs

/-- A quote after stage 3 is a stage-2 quote or a third-party direct
quote guarded by its condition. -/
theorem mem_services_after_3p {ep : List EPRate} {upsR : List UPSRated}
    {fxR : List FedExRated} {pc : Nat} {bill : Bool}
    {clean zip3p oid us fs fz : String} {s : Service}
    (hs : s ∈ services_after_3p_blocks ep upsR fxR pc bill clean zip3p oid us fs fz) :
    s ∈ services_after_sender ep fxR pc bill oid fs fz
    ∨ (ups_3p_called bill clean = true
        ∧ ∃ r ∈ upsR, s = ups_direct_service us clean zip3p r)
    ∨ (fedex_3p_called bill clean = true
        ∧ ∃ r ∈ fxR, s = fedex_3p_service fs clean zip3p r) := by
  unfold services_after_3p_blocks at hs
  by_cases h6 : ups_3p_called bill clean = true
  · rw [if_pos h6] at hs
    rcases List.mem_append.mp (List.mem_of_mem_filter hs) with h | h
    · exact Or.inl h
    · obtain ⟨r, hr, hrr⟩ := List.mem_map.mp h
      exact Or.inr (Or.inl ⟨h6, r, hr, hrr.symm⟩)
  · rw [if_neg h6] at hs
    by_cases h9 : fedex_3p_called bill clean = true
    · rw [if_pos h9] at hs
      rcases List.mem_append.mp hs with h | h
      · exact Or.inl h
      · obtain ⟨r, hr, hrr⟩ := List.mem_map.mp h
        exact Or.inr (Or.inr ⟨h9, r, hr, hrr.symm⟩)
    · rw [if_neg h9] at hs
      exact Or.inl hs

/-- The final third-party filter only narrows stage 3. -/
theorem mem_core_stage3 {ep : List EPRate} {upsR : List UPSRated}
    {fxR : List FedExRated} {pc : Nat} {bill : Bool}
    {clean zip3p oid us fs fz : String} {s : Service}
    (hs : s ∈ get_available_services_core ep upsR fxR pc bill clean zip3p oid us fs fz) :
    s ∈ services_after_3p_blocks ep upsR fxR pc bill clean zip3p oid us fs fz := by
  unfold get_available_services_core at hs
  split at hs
  · split at hs
    · exact List.mem_of_mem_filter hs
    · split at hs
      · exact List.mem_of_mem_filter hs
      · exact hs
  · exact hs

/-- The carrier code of a sender-billed FedEx direct quote. -/
theorem ccUp_fedex_sender (a b : String) (r : FedExRated) :
    ccUp (fedex_sender_service a b r) = "FEDEX"
      ∧ (fedex_sender_service a b r).service_provider = "FedEx" := by
  have hup : str_upper "FEDEX" = "FEDEX" := by decide
  exact ⟨by simp [ccUp, fedex_sender_service, hup], rfl⟩

/-- The carrier code of a third-party FedEx direct quote. -/
theorem ccUp_fedex_3p (a c z : String) (r : FedExRated) :
    ccUp (fedex_3p_service a c z r) = "FEDEX"
      ∧ (fedex_3p_service a c z r).service_provider = "FedEx" := by
  have hup : str_upper "FEDEX" = "FEDEX" := by decide
  exact ⟨by simp [ccUp, fedex_3p_service, hup], rfl⟩

/-- A UPS direct quote has no carrier code key. -/
theorem ccUp_ups_direct (a c z : String) (r : UPSRated) :
    ccUp (ups_direct_service a c z r) = ""
      ∧ (ups_direct_service a c z r).service_provider = "UPS" := by
  have hup : str_upper "" = "" := by decide
  exact ⟨by simp [ccUp, ups_direct_service, hup], rfl⟩

/-! Claim C1. -/

/-- C1: with third-party billing active, a 6-character cleaned account
leaves only UPS-provider quotes in the result, a 9-character account only
FedEx-provider quotes, and any other length deactivates third-party
billing: no third-party payment block is built and the result is exactly
the collision-filtered aggregator list, with no carrier filter applied. -/
theorem C1_third_party_filter (ep : List EPRate) (upsR : List UPSRated)
    (fxR : List FedExRated) (pc : Nat)
    (acct zip3p oid upsShipper fxShipper fromZip : String) :
    ((clean_account acct).length = 6 →
      ∀ s ∈ get_available_services_core ep upsR fxR pc true (clean_account acct)
              zip3p oid upsShipper fxShipper fromZip,
        s.service_provider = "UPS") ∧
    ((clean_account acct).length = 9 →
      ∀ s ∈ get_available_services_core ep upsR fxR pc true (clean_account acct)
              zip3p oid upsShipper fxShipper fromZip,
        s.service_provider = "FedEx") ∧
    ((clean_account acct).length ≠ 6 → (clean_account acct).length ≠ 9 →
      third_party_payment_block true (clean_account acct) zip3p = none ∧
      get_available_services_core ep upsR fxR pc true (clean_account acct)
          zip3p oid upsShipper fxShipper fromZip
        = services_after_collision ep pc oid) := by
  refine ⟨?_, ?_, ?_⟩
  · intro h s hs
    have heq : get_available_services_core ep upsR fxR pc true (clean_account acct)
        zip3p oid upsShipper fxShipper fromZip
        = (services_after_3p_blocks ep upsR fxR pc true (clean_account acct)
            zip3p oid upsShipper fxShipper fromZip).filter
          (fun s => s.service_provider == "UPS") := by
      simp [get_available_services_core, h]
    rw [heq] at hs
    simpa using (List.mem_filter.mp hs).2
  · intro h s hs
    have heq : get_available_services_core ep upsR fxR pc true (clean_account acct)
        zip3p oid upsShipper fxShipper fromZip
        = (services_after_3p_blocks ep upsR fxR pc true (clean_account acct)
            zip3p oid upsShipper fxShipper fromZip).filter
          (fun s => s.service_provider == "FedEx") := by
      simp [get_available_services_core, h]
    rw [heq] at hs
    simpa using (List.mem_filter.mp hs).2
  · intro h6 h9
    have hb6 : ((clean_account acct).length == 6) = false := by
      simpa using h6
    have hb9 : ((clean_account acct).length == 9) = false := by
      simpa using h9
    refine ⟨?_, ?_⟩
    · simp [third_party_payment_block, hb6]
    · simp [get_available_services_core, services_after_3p_blocks,
        services_after_sender, ups_3p_called, fedex_3p_called,
        fedex_sender_called, hb6, hb9]

/-- C1 witness: a punctuated account cleaning to 6 characters leaves only
UPS quotes at a concrete input. -/
theorem C1_third_party_filter_witness :
    ((get_available_services_core epEx upsEx [] 1 true (clean_account "A23-456")
        "92805" "shp_1" "X1" "F1" "92805").all
      (fun s => s.service_provider == "UPS")) = true := by
  rw [List.all_eq_true]
  intro s hs
  have h := (C1_third_party_filter epEx upsEx [] 1 "A23-456" "92805" "shp_1"
      "X1" "F1" "92805").1 (by decide) s hs
  simp [h]

/-! Claim C4. -/

/-- C4: the claim that no returned quote carries carrier code FEDEX when
parcel_count is 1 is false: with third-party billing on a 9-character
account, the FedEx direct quotes appended after the collision filter
carry FEDEX and survive the final provider filter even for one parcel. -/
theorem C4_counterexample :
    ¬ (∀ s ∈ get_available_services_core [] [] fxEx 1 true "510001234" "92805"
          "shp_1" "X1" "F1" "92805",
        ccUp s ≠ "FEDEX") := by
  intro h
  have hb6 : (("510001234").length == 6) = false := by decide
  have hb9 : (("510001234").length == 9) = true := by decide
  have hmem : fedex_3p_service "F1" "510001234" "92805"
      (FedExRated.mk (some "FEDEX_GROUND") 25 (some "TWO_DAYS")) ∈
      get_available_services_core [] [] fxEx 1 true "510001234" "92805"
        "shp_1" "X1" "F1" "92805" := by
    simp [get_available_services_core, services_after_3p_blocks,
      services_after_sender, services_after_collision, epServices,
      collision_filter, ups_3p_called, fedex_3p_called, fedex_sender_called,
      hb6, hb9, fxEx, fedex_3p_service]
  exact absurd (ccUp_fedex_3p "F1" "510001234" "92805"
      (FedExRated.mk (some "FEDEX_GROUND") 25 (some "TWO_DAYS"))).1 (h _ hmem)

/-- C4 amended: for parcel_count above 1 no returned quote carries the
aggregator-pooled code FEDEXDEFAULT; for parcel_count 1 every returned
quote carrying the carrier-direct code FEDEX is a carrier-direct quote
(service_provider FedEx, present only through the third-party 9-character
branch) — aggregator quotes never carry FEDEX at parcel_count 1. -/
theorem C4_collision_filter (ep : List EPRate) (upsR : List UPSRated)
    (fxR : List FedExRated) (pc : Nat) (bill : Bool)
    (clean zip3p oid us fs fz : String) :
    (pc > 1 →
      ∀ s ∈ get_available_services_core ep upsR fxR pc bill clean zip3p oid us fs fz,
        ccUp s ≠ "FEDEXDEFAULT") ∧
    (pc = 1 →
      ∀ s ∈ get_available_services_core ep upsR fxR pc bill clean zip3p oid us fs fz,
        ccUp s = "FEDEX" → s.service_provider = "FedEx") := by
  constructor
  · intro hpc s hs
    rcases mem_services_after_3p (mem_core_stage3 hs) with
      h | ⟨_, r, _, rfl⟩ | ⟨_, r, _, rfl⟩
    · rcases mem_services_after_sender h with h2 | ⟨_, r, _, rfl⟩
      · exact (mem_services_after_collision h2).1 hpc
      · rw [(ccUp_fedex_sender fs fz r).1]
        decide
    · rw [(ccUp_ups_direct us clean zip3p r).1]
      decide
    · rw [(ccUp_fedex_3p fs clean zip3p r).1]
      decide
  · intro hpc s hs hup
    subst hpc
    rcases mem_services_after_3p (mem_core_stage3 hs) with
      h | ⟨_, r, _, rfl⟩ | ⟨_, r, _, rfl⟩
    · rcases mem_services_after_sender h with h2 | ⟨hcond, r, _, rfl⟩
      · exact absurd hup ((mem_services_after_collision h2).2 (by omega))
      · simp [fedex_sender_called] at hcond
    · rw [(ccUp_ups_direct us clean zip3p r).1] at hup
      exact absurd hup (by decide)
    · exact (ccUp_fedex_3p fs clean zip3p r).2

/-- C4 witness: at a concrete two-parcel sender-billed input no quote
carries FEDEXDEFAULT. -/
theorem C4_collision_filter_witness :
    ((get_available_services_core epEx [] fxEx 2 false "" "" "ord_1" "X1" "F1"
        "92805").all (fun s => ccUp s != "FEDEXDEFAULT")) = true := by
  rw [List.all_eq_true]
  intro s hs
  have h := (C4_collision_filter epEx [] fxEx 2 false "" "" "ord_1" "X1" "F1"
      "92805").1 (by omega) s hs
  simpa using h

/-- C7 witness: a punctuated 10-digit phone is accepted by both clients
in digits-only form. -/
theorem C7_phone_validation_witness :
    ups_phone (some "(714) 779-8794") = .ok (some "7147798794") ∧
    fedex_phone (some "(714) 779-8794") = .ok "7147798794" := by
  have h := (C7_phone_validation (some "(714) 779-8794")).2.1
      "(714) 779-8794" rfl (by decide)
  rw [show clean_phone "(714) 779-8794" = "7147798794" from by decide] at h
  exact h

end ErpShip
